import Mathlib

/-!
Verification of the ZBProxy management backend (`src/main.py`).

Two subsystems are embedded:

* the nested-path accessor/mutator `get_nested_value` / `set_nested_value`
  over JSON-like documents (shallow embedding as a `JSON` inductive with
  association-list objects, mirroring Python dict insertion-order
  semantics for lookup and assignment);
* the process supervisor `start_zbproxy` / `stop_zbproxy` /
  `restart_zbproxy` / `get_status`, embedded as pure state-transition
  functions over the supervisor's tracked reference, parameterised by a
  "world" record capturing the outcomes of the OS/psutil interactions
  each call performs.
-/

namespace ZB

/-- JSON-like document values, the data model of the config file.
Objects are association lists in insertion order; Python `dict` lookup
is modelled by first match and `d[k] = v` by replace-first-or-append. -/
inductive JSON where
  | null : JSON
  | bool (b : Bool) : JSON
  | num (n : Int) : JSON
  | str (s : String) : JSON
  | arr (xs : List JSON) : JSON
  | obj (fields : List (String × JSON)) : JSON

/-- A scalar is any non-container value. -/
def isScalar : JSON → Bool
  | .arr _ => false
  | .obj _ => false
  | _ => true

/-- The path-error taxonomy of the accessor: the three distinct
HTTP 400 messages raised by `get_nested_value` / `set_nested_value`
(`无效的数组索引` = InvalidIndex, `路径不存在` = PathNotFound,
`无法设置值到路径` = InvalidTarget). -/
inductive PathError where
  | invalidIndex : PathError
  | pathNotFound : PathError
  | invalidTarget : PathError
deriving DecidableEq

/-- Python `dict` membership/lookup on our association lists:
first entry with the given key. -/
def lookupKey : List (String × JSON) → String → Option JSON
  | [], _ => none
  | (k, v) :: rest, key => if k = key then some v else lookupKey rest key

/-- Python `d[key] = v` on our association lists: replace the first
entry with that key, or append a new entry at the end. -/
def setKey : List (String × JSON) → String → JSON → List (String × JSON)
  | [], key, v => [(key, v)]
  | (k, w) :: rest, key, v =>
      if k = key then (k, v) :: rest else (k, w) :: setKey rest key v

/-- Python `str.isdigit()` on the ASCII fragment: nonempty and all
characters are decimal digits. -/
def pyIsdigit (s : String) : Bool :=
  !s.data.isEmpty && s.data.all Char.isDigit

/-- Python `int(s)` for a digit string. -/
def toIndex (s : String) : Nat :=
  s.data.foldl (fun n c => 10 * n + (c.toNat - 48)) 0

/-- Helper for `splitPath`: accumulates the current segment (reversed). -/
def splitPathAux : List Char → List Char → List String
  | [], acc => [String.mk acc.reverse]
  | c :: cs, acc =>
      if c = '.' then String.mk acc.reverse :: splitPathAux cs []
      else splitPathAux cs (c :: acc)

/-- Python `path.split('.')`: in particular `"".split('.') = [""]` and
`"a..b".split('.') = ["a", "", "b"]`. -/
def splitPath (s : String) : List String :=
  splitPathAux s.data []

/-- One iteration of the traversal loop shared by `get_nested_value`
and the prefix walk of `set_nested_value`: a numeric segment indexes a
list (in bounds, else InvalidIndex); a non-numeric segment looks up an
object key (present, else PathNotFound). -/
def getStep (current : JSON) (key : String) : Except PathError JSON :=
  if pyIsdigit key then
    match current with
    | .arr xs =>
        if h : toIndex key < xs.length then .ok xs[toIndex key]
        else .error .invalidIndex
    | _ => .error .invalidIndex
  else
    match current with
    | .obj fields =>
        match lookupKey fields key with
        | some v => .ok v
        | none => .error .pathNotFound
    | _ => .error .pathNotFound

/-- The `for key in keys` loop of `get_nested_value`. -/
def getGo : JSON → List String → Except PathError JSON
  | current, [] => .ok current
  | current, key :: rest =>
      match getStep current key with
      | .ok next => getGo next rest
      | .error e => .error e

/-- `get_nested_value(data, path)` (src/main.py:65-83). -/
def getNestedValue (data : JSON) (path : String) : Except PathError JSON :=
  getGo data (splitPath path)

/-- The final-segment assignment of `set_nested_value`
(src/main.py:102-112): numeric last key writes an in-bounds list slot,
non-numeric last key upserts an object key, anything else is
InvalidTarget / InvalidIndex. -/
def setLast (current : JSON) (key : String) (v : JSON) : Except PathError JSON :=
  if pyIsdigit key then
    match current with
    | .arr xs =>
        if toIndex key < xs.length then .ok (.arr (xs.set (toIndex key) v))
        else .error .invalidIndex
    | _ => .error .invalidIndex
  else
    match current with
    | .obj fields => .ok (.obj (setKey fields key v))
    | _ => .error .invalidTarget

/-- `set_nested_value`'s walk over `keys[:-1]` followed by the final
assignment. The `[]` case is unreachable from `setNestedValue` because
`splitPath` never returns an empty list (Python would hit an
IndexError on `keys[-1]` there). -/
def setGo : JSON → List String → JSON → Except PathError JSON
  | _, [], _ => .error .invalidTarget
  | current, [key], v => setLast current key v
  | current, key :: r :: rs, v =>
      if pyIsdigit key then
        match current with
        | .arr xs =>
            if h : toIndex key < xs.length then
              match setGo xs[toIndex key] (r :: rs) v with
              | .ok child => .ok (.arr (xs.set (toIndex key) child))
              | .error e => .error e
            else .error .invalidIndex
        | _ => .error .invalidIndex
      else
        match current with
        | .obj fields =>
            match lookupKey fields key with
            | some cur =>
                match setGo cur (r :: rs) v with
                | .ok child => .ok (.obj (setKey fields key child))
                | .error e => .error e
            | none => .error .pathNotFound
        | _ => .error .pathNotFound

/-- `set_nested_value(data, path, value)` (src/main.py:85-112), as a
function returning the updated document (the Python version mutates
`data` in place; `setNestedMut` below models the in-place discipline). -/
def setNestedValue (data : JSON) (path : String) (v : JSON) : Except PathError JSON :=
  setGo data (splitPath path) v

/-- In-place model of `set_nested_value` (src/main.py:85-112). The
`rebuild` continuation is the zipper standing for the chain of
references from the document root down to `current` (Python's `current`
variable aliases into the root structure). Every error path returns the
root untouched, because the Python function raises before performing
its single mutation `current[last_key] = value`; the success path
performs exactly that one write through the zipper. -/
def setMutGo : JSON → List String → JSON → (JSON → JSON) → JSON →
    JSON × Option PathError
  | _, [], _, _, root => (root, some .invalidTarget)
  | current, [key], v, rebuild, root =>
      if pyIsdigit key then
        match current with
        | .arr xs =>
            if toIndex key < xs.length then
              (rebuild (.arr (xs.set (toIndex key) v)), none)
            else (root, some .invalidIndex)
        | _ => (root, some .invalidIndex)
      else
        match current with
        | .obj fields => (rebuild (.obj (setKey fields key v)), none)
        | _ => (root, some .invalidTarget)
  | current, key :: r :: rs, v, rebuild, root =>
      if pyIsdigit key then
        match current with
        | .arr xs =>
            if h : toIndex key < xs.length then
              setMutGo xs[toIndex key] (r :: rs) v
                (fun c => rebuild (.arr (xs.set (toIndex key) c))) root
            else (root, some .invalidIndex)
        | _ => (root, some .invalidIndex)
      else
        match current with
        | .obj fields =>
            match lookupKey fields key with
            | some cur =>
                setMutGo cur (r :: rs) v
                  (fun c => rebuild (.obj (setKey fields key c))) root
            | none => (root, some .pathNotFound)
        | _ => (root, some .pathNotFound)

/-- `set_nested_value(data, path, value)` in its in-place reading:
returns the document after the call together with the raised error,
if any. -/
def setNestedMut (data : JSON) (path : String) (v : JSON) :
    JSON × Option PathError :=
  setMutGo data (splitPath path) v id data

/-! ## Process supervisor

The supervisor's in-memory state is the global `zbproxy_process`
reference, modelled as `Option Nat` (the pid of the tracked
`subprocess.Popen` handle, `none` when cleared). Each lifecycle
operation is a pure function of that state and a "world" record giving
the outcomes of the OS/psutil interactions the operation performs:
`poll()` on the tracked handle, `find_zbproxy_process()`,
`os.path.exists` on the executable, and the spawn / terminate calls. -/

/-- Outcome of the `subprocess.Popen` attempt in `start_zbproxy`:
either a process is created (with its liveness at the re-check after
the one-second sleep), or the syscall raises. -/
inductive SpawnOutcome where
  | spawned (pid : Nat) (aliveAfterWait : Bool) : SpawnOutcome
  | fileNotFound : SpawnOutcome
  | permissionError : SpawnOutcome
  | otherError : SpawnOutcome
deriving DecidableEq

/-- OS interactions observed by one `start_zbproxy` call. -/
structure StartWorld where
  trackedAlive : Bool
  externalPid : Option Nat
  execExists : Bool
  spawn : SpawnOutcome
deriving DecidableEq

/-- Result of `start_zbproxy`: the two AlreadyRunning outcomes are
returned as `success: False` JSON, the `err*` outcomes are raised
HTTPExceptions (404 / 403 / 500). -/
inductive StartResult where
  | started (pid : Nat) : StartResult
  | alreadyRunningTracked (pid : Nat) : StartResult
  | alreadyRunningExternal (pid : Nat) : StartResult
  | errNotFound : StartResult
  | errPermission : StartResult
  | errLaunchFailed : StartResult
  | errOther : StartResult
deriving DecidableEq

/-- The tail of `start_zbproxy` (src/main.py:340-400) after both
already-running checks have passed: executable-existence check,
best-effort chmod (no observable effect on the result), spawn, sleep,
and the liveness re-check. Returns (result, new tracked state, whether
a process was spawned). -/
def startAfterChecks (tracked : Option Nat) (w : StartWorld) :
    StartResult × Option Nat × Bool :=
  if w.execExists = false then (.errNotFound, tracked, false)
  else
    match w.spawn with
    | .spawned pid alive =>
        if alive then (.started pid, some pid, true)
        else (.errLaunchFailed, none, true)
    | .fileNotFound => (.errNotFound, none, false)
    | .permissionError => (.errPermission, none, false)
    | .otherError => (.errOther, none, false)

/-- `start_zbproxy` (src/main.py:318-400): tracked-alive check, then
external-process scan, then the spawn phase. -/
def startZbproxy (tracked : Option Nat) (w : StartWorld) :
    StartResult × Option Nat × Bool :=
  match tracked with
  | some p =>
      if w.trackedAlive then (.alreadyRunningTracked p, some p, false)
      else
        match w.externalPid with
        | some e => (.alreadyRunningExternal e, some p, false)
        | none => startAfterChecks (some p) w
  | none =>
      match w.externalPid with
      | some e => (.alreadyRunningExternal e, none, false)
      | none => startAfterChecks none w

/-- OS interactions observed by `get_status`: liveness of the tracked
handle and the result of `find_zbproxy_process()`. -/
structure ScanWorld where
  trackedAlive : Bool
  externalPid : Option Nat
deriving DecidableEq

/-- The three states reported by `get_status`. -/
inductive StatusResult where
  | runningOwned (pid : Nat) : StatusResult
  | runningExternal (pid : Nat) : StatusResult
  | stopped : StatusResult
deriving DecidableEq

/-- `get_status` (src/main.py:285-316): reports the tracked process if
alive, otherwise scans for an external one (clearing the tracked
reference), otherwise reports stopped (also clearing). -/
def getStatus (tracked : Option Nat) (w : ScanWorld) :
    StatusResult × Option Nat :=
  match tracked with
  | some p =>
      if w.trackedAlive then (.runningOwned p, some p)
      else
        match w.externalPid with
        | some e => (.runningExternal e, none)
        | none => (.stopped, none)
  | none =>
      match w.externalPid with
      | some e => (.runningExternal e, none)
      | none => (.stopped, none)

/-- Outcome of the tracked-process teardown in `stop_zbproxy`
(src/main.py:411-437): graceful exit within the 5s wait, timeout then
kill, or any exception (swallowed by the `except Exception: pass`). -/
inductive TrackedStopOutcome where
  | exitedInTime : TrackedStopOutcome
  | timedOutThenKilled : TrackedStopOutcome
  | raisedCaught : TrackedStopOutcome
deriving DecidableEq

/-- Outcome of `proc.terminate(); proc.wait(timeout=5)` on the
discovered external process (src/main.py:440-451): graceful exit;
TimeoutExpired or AccessDenied (both caught, escalating to a `kill`
whose own success is `killOk`); or NoSuchProcess, which is NOT in the
caught tuple and therefore propagates. -/
inductive ExtTermOutcome where
  | exited : ExtTermOutcome
  | timeoutThenKill (killOk : Bool) : ExtTermOutcome
  | accessDeniedThenKill (killOk : Bool) : ExtTermOutcome
  | noSuchProcess : ExtTermOutcome
deriving DecidableEq

/-- A psutil exception escaping `stop_zbproxy` uncaught. -/
inductive PsutilExn where
  | noSuchProcess : PsutilExn
deriving DecidableEq

/-- OS interactions observed by one `stop_zbproxy` call. -/
structure StopWorld where
  trackedAlive : Bool
  trackedStop : TrackedStopOutcome
  externalPid : Option Nat
  extTerm : ExtTermOutcome
deriving DecidableEq

/-- `stop_zbproxy` (src/main.py:402-462). The tracked branch is entered
only when the tracked handle polls alive; its `finally` clears the
reference (a dead tracked handle is left in place). The external branch
appends the discovered pid on successful terminate or kill; a
NoSuchProcess from `terminate`/`wait` escapes as an error. The returned
list is `stopped_processes`. -/
def stopZbproxy (tracked : Option Nat) (w : StopWorld) :
    Except PsutilExn (List Nat) × Option Nat :=
  let part1 : List Nat :=
    match tracked with
    | some p =>
        if w.trackedAlive then
          match w.trackedStop with
          | .exitedInTime => [p]
          | .timedOutThenKilled => [p]
          | .raisedCaught => []
        else []
    | none => []
  let tracked1 : Option Nat :=
    match tracked with
    | some _ => if w.trackedAlive then none else tracked
    | none => none
  match w.externalPid with
  | none => (.ok part1, tracked1)
  | some e =>
      match w.extTerm with
      | .exited => (.ok (part1 ++ [e]), tracked1)
      | .timeoutThenKill killOk =>
          (.ok (if killOk then part1 ++ [e] else part1), tracked1)
      | .accessDeniedThenKill killOk =>
          (.ok (if killOk then part1 ++ [e] else part1), tracked1)
      | .noSuchProcess => (.error .noSuchProcess, tracked1)

/-- Result of `restart_zbproxy`: note the type carries no stop
information — the source computes `stop_result` and never uses it in
the response, which is `{"success": True, message, pid}` on start
success, `{"success": False, message: "重启失败: " + start message}` on
a returned start failure, or the propagated start exception. -/
inductive RestartResult where
  | ok (pid : Nat) : RestartResult
  | failed : RestartResult
  | raisedFromStop (e : PsutilExn) : RestartResult
  | raisedFromStart (r : StartResult) : RestartResult
deriving DecidableEq

/-- `restart_zbproxy` (src/main.py:464-486): stop, settle delay, start;
the stop result is discarded. -/
def restartZbproxy (tracked : Option Nat) (ws : StopWorld)
    (wst : StartWorld) : RestartResult × Option Nat :=
  match stopZbproxy tracked ws with
  | (.error e, t1) => (.raisedFromStop e, t1)
  | (.ok _stopped, t1) =>
      match startZbproxy t1 wst with
      | (.started p, t2, _) => (.ok p, t2)
      | (.alreadyRunningTracked _, t2, _) => (.failed, t2)
      | (.alreadyRunningExternal _, t2, _) => (.failed, t2)
      | (.errNotFound, t2, _) => (.raisedFromStart .errNotFound, t2)
      | (.errPermission, t2, _) => (.raisedFromStart .errPermission, t2)
      | (.errLaunchFailed, t2, _) => (.raisedFromStart .errLaunchFailed, t2)
      | (.errOther, t2, _) => (.raisedFromStart .errOther, t2)

theorem splitPathAux_ne_nil : ∀ (cs acc : List Char), splitPathAux cs acc ≠ [] := by
  intro cs
  induction cs with
  | nil => intro acc; simp [splitPathAux]
  | cons c cs ih =>
      intro acc
      simp only [splitPathAux]
      split
      · simp
      · exact ih _

theorem splitPath_ne_nil (s : String) : splitPath s ≠ [] :=
  splitPathAux_ne_nil _ _

theorem lookupKey_setKey_self (fs : List (String × JSON)) (key : String) (v : JSON) :
    lookupKey (setKey fs key v) key = some v := by
  induction fs with
  | nil => simp [setKey, lookupKey]
  | cons kv rest ih =>
      obtain ⟨k, w⟩ := kv
      simp only [setKey]
      split
      · next h => simp [lookupKey, h]
      · next h => simp [lookupKey, h, ih]

theorem lookupKey_setKey_ne (fs : List (String × JSON)) (key key' : String) (v : JSON)
    (hne : key' ≠ key) :
    lookupKey (setKey fs key v) key' = lookupKey fs key' := by
  have hne' : ¬(key = key') := fun h => hne h.symm
  induction fs with
  | nil => simp [setKey, lookupKey, hne']
  | cons kv rest ih =>
      obtain ⟨k, w⟩ := kv
      by_cases hk : k = key
      · subst hk
        simp [setKey, lookupKey, hne']
      · simp [setKey, lookupKey, hk, ih]

/-- If one traversal step of `get_nested_value` succeeds, then the final
assignment of `set_nested_value` through the same segment succeeds and a
subsequent traversal step reads back the written value. -/
theorem setLast_of_getStep (current : JSON) (key : String) (s v : JSON)
    (h : getStep current key = .ok s) :
    ∃ d, setLast current key v = .ok d ∧ getStep d key = .ok v := by
  by_cases hd : pyIsdigit key = true
  · cases current with
    | arr xs =>
        simp only [getStep, hd, if_true] at h
        split at h
        · next hlt =>
            refine ⟨.arr (xs.set (toIndex key) v), ?_, ?_⟩
            · simp [setLast, hd, hlt]
            · have hlt' : toIndex key < (xs.set (toIndex key) v).length := by
                simpa using hlt
              simp [getStep, hd, hlt, hlt']
        · simp at h
    | null => simp [getStep, hd] at h
    | bool b => simp [getStep, hd] at h
    | num n => simp [getStep, hd] at h
    | str t => simp [getStep, hd] at h
    | obj fs => simp [getStep, hd] at h
  · cases current with
    | obj fs =>
        refine ⟨.obj (setKey fs key v), ?_, ?_⟩
        · simp [setLast, hd]
        · simp [getStep, hd, lookupKey_setKey_self]
    | null => simp [getStep, hd] at h
    | bool b => simp [getStep, hd] at h
    | num n => simp [getStep, hd] at h
    | str t => simp [getStep, hd] at h
    | arr xs => simp [getStep, hd] at h

/-- Write-then-read round trip at the level of segment lists: if the
traversal of `get_nested_value` succeeds on a nonempty segment list,
then `set_nested_value`'s traversal succeeds and reading the same
segments from the updated document returns the written value. -/
theorem getGo_setGo (v : JSON) :
    ∀ (keys : List String), keys ≠ [] → ∀ (current s : JSON),
      getGo current keys = .ok s →
      ∃ d, setGo current keys v = .ok d ∧ getGo d keys = .ok v := by
  intro keys
  induction keys with
  | nil => intro h; exact absurd rfl h
  | cons k rest ih =>
      intro _ current s hget
      simp only [getGo] at hget
      cases hstep : getStep current k with
      | error e => rw [hstep] at hget; simp at hget
      | ok next =>
          rw [hstep] at hget
          simp at hget
          cases rest with
          | nil =>
              simp only [getGo] at hget
              obtain rfl : next = s := by simpa using hget
              obtain ⟨d, hset, hread⟩ := setLast_of_getStep current k next v hstep
              refine ⟨d, hset, ?_⟩
              simp [getGo, hread]
          | cons r rs =>
              obtain ⟨d', hset', hget'⟩ := ih (by simp) next s hget
              by_cases hd : pyIsdigit k = true
              · cases current with
                | arr xs =>
                    simp only [getStep, hd, if_true] at hstep
                    split at hstep
                    · next hlt =>
                        obtain rfl : xs[toIndex k] = next := by simpa using hstep
                        refine ⟨.arr (xs.set (toIndex k) d'), ?_, ?_⟩
                        · simp [setGo, hd, hlt, hset']
                        · have hlt' : toIndex k < (xs.set (toIndex k) d').length := by
                            simpa using hlt
                          simp only [getGo, getStep, hd, if_true]
                          rw [dif_pos hlt']
                          simpa using hget'
                    · simp at hstep
                | null => simp [getStep, hd] at hstep
                | bool b => simp [getStep, hd] at hstep
                | num n => simp [getStep, hd] at hstep
                | str t => simp [getStep, hd] at hstep
                | obj fs => simp [getStep, hd] at hstep
              · cases current with
                | obj fs =>
                    cases hlook : lookupKey fs k with
                    | none => simp [getStep, hd, hlook] at hstep
                    | some cur =>
                        obtain rfl : cur = next := by
                          simpa [getStep, hd, hlook] using hstep
                        refine ⟨.obj (setKey fs k d'), ?_, ?_⟩
                        · simp [setGo, hd, hlook, hset']
                        · simp only [getGo, getStep, hd, if_false,
                            Bool.false_eq_true]
                          rw [lookupKey_setKey_self]
                          simpa using hget'
                | null => simp [getStep, hd] at hstep
                | bool b => simp [getStep, hd] at hstep
                | num n => simp [getStep, hd] at hstep
                | str t => simp [getStep, hd] at hstep
                | arr xs => simp [getStep, hd] at hstep

/-- Agreement of the in-place model with the functional model: on
success the mutated root is the functional result threaded through the
zipper, on error the root is returned untouched with the same error. -/
theorem setMutGo_eq (keys : List String) :
    ∀ (current v : JSON) (rebuild : JSON → JSON) (root : JSON),
      setMutGo current keys v rebuild root =
        match setGo current keys v with
        | .ok d => (rebuild d, none)
        | .error e => (root, some e) := by
  induction keys with
  | nil => intro current v rebuild root; rfl
  | cons k rest ih =>
      intro current v rebuild root
      cases rest with
      | nil =>
          by_cases hd : pyIsdigit k = true
          · cases current with
            | arr xs =>
                by_cases hlt : toIndex k < xs.length
                · simp [setMutGo, setGo, setLast, hd, hlt]
                · simp [setMutGo, setGo, setLast, hd, hlt]
            | null => simp [setMutGo, setGo, setLast, hd]
            | bool b => simp [setMutGo, setGo, setLast, hd]
            | num n => simp [setMutGo, setGo, setLast, hd]
            | str t => simp [setMutGo, setGo, setLast, hd]
            | obj fs => simp [setMutGo, setGo, setLast, hd]
          · cases current with
            | obj fs => simp [setMutGo, setGo, setLast, hd]
            | null => simp [setMutGo, setGo, setLast, hd]
            | bool b => simp [setMutGo, setGo, setLast, hd]
            | num n => simp [setMutGo, setGo, setLast, hd]
            | str t => simp [setMutGo, setGo, setLast, hd]
            | arr xs => simp [setMutGo, setGo, setLast, hd]
      | cons r rs =>
          by_cases hd : pyIsdigit k = true
          · cases current with
            | arr xs =>
                by_cases hlt : toIndex k < xs.length
                · cases hrec : setGo xs[toIndex k] (r :: rs) v with
                  | ok child => simp [setMutGo, setGo, hd, hlt, ih, hrec]
                  | error e => simp [setMutGo, setGo, hd, hlt, ih, hrec]
                · simp [setMutGo, setGo, hd, hlt]
            | null => simp [setMutGo, setGo, hd]
            | bool b => simp [setMutGo, setGo, hd]
            | num n => simp [setMutGo, setGo, hd]
            | str t => simp [setMutGo, setGo, hd]
            | obj fs => simp [setMutGo, setGo, hd]
          · cases current with
            | obj fs =>
                cases hlook : lookupKey fs k with
                | some cur =>
                    cases hrec : setGo cur (r :: rs) v with
                    | ok child => simp [setMutGo, setGo, hd, hlook, ih, hrec]
                    | error e => simp [setMutGo, setGo, hd, hlook, ih, hrec]
                | none => simp [setMutGo, setGo, hd, hlook]
            | null => simp [setMutGo, setGo, hd]
            | bool b => simp [setMutGo, setGo, hd]
            | num n => simp [setMutGo, setGo, hd]
            | str t => simp [setMutGo, setGo, hd]
            | arr xs => simp [setMutGo, setGo, hd]

example : getNestedValue (.obj [("a", .num 1)]) "a" = .ok (.num 1) := rfl
example : splitPath "" = [""] := rfl
example : splitPath "Services.0.Listen" = ["Services", "0", "Listen"] := rfl
example :
    getNestedValue (.obj [("Services", .arr [.obj [("Listen", .num 25565)]])])
      "Services.0.Listen" = .ok (.num 25565) := rfl
example :
    getNestedValue (.obj [("Services", .arr [])]) "Services.0.Listen"
      = .error .invalidIndex := rfl
example :
    setNestedValue (.obj []) "NewField" (.num 5)
      = .ok (.obj [("NewField", .num 5)]) := rfl
example :
    setNestedValue (.obj []) "A.B" (.num 5) = .error .pathNotFound := rfl

/-- A successful start tracks the spawned pid. -/
theorem startZbproxy_started (t : Option Nat) (w : StartWorld) (p : Nat)
    (h : (startZbproxy t w).1 = .started p) :
    (startZbproxy t w).2.1 = some p := by
  obtain ⟨ta, ext, ee, sp⟩ := w
  rcases t with _ | q <;> cases ta <;> rcases ext with _ | e <;>
      cases ee <;> rcases sp with ⟨r, al⟩ | _ | _ | _ <;> try cases al
  all_goals simp_all [startZbproxy, startAfterChecks]

/-- C1: for every document `D`, every path `P` that resolves in `D` to a
scalar value, and every value `v`, `assign(D, P, v)` succeeds and
`resolve` on the mutated document along `P` returns `v`
(write-then-read round trip). -/
theorem C1_assign_resolve_roundtrip (D : JSON) (P : String) (v s : JSON)
    (hres : getNestedValue D P = .ok s) (_hsc : isScalar s = true) :
    ∃ d, setNestedValue D P v = .ok d ∧ getNestedValue d P = .ok v :=
  getGo_setGo v (splitPath P) (splitPath_ne_nil P) D s hres

/-- Witness for C1 at `D = {"a": 1}`, `P = "a"`, `v = 2`. -/
theorem C1_assign_resolve_roundtrip_witness :
    ∃ d, setNestedValue (.obj [("a", .num 1)]) "a" (.num 2) = .ok d ∧
      getNestedValue d "a" = .ok (.num 2) :=
  C1_assign_resolve_roundtrip (.obj [("a", .num 1)]) "a" (.num 2) (.num 1)
    rfl rfl

/-- C2: `resolve` on `"Services.0.Listen"` against
`{"Services":[{"Listen":25565}]}` returns `25565` and against
`{"Services":[]}` fails with InvalidIndex; in general a numeric segment
descends into a sequence element exactly when the current node is a
sequence and the index is in bounds. -/
theorem C2_resolve_numeric_index :
    getNestedValue (.obj [("Services", .arr [.obj [("Listen", .num 25565)]])])
        "Services.0.Listen" = .ok (.num 25565) ∧
    getNestedValue (.obj [("Services", .arr [])]) "Services.0.Listen"
        = .error .invalidIndex ∧
    (∀ (current : JSON) (key : String) (x : JSON), pyIsdigit key = true →
        getStep current key = .ok x →
        ∃ xs, current = .arr xs ∧
          ∃ h : toIndex key < xs.length, x = xs[toIndex key]) ∧
    (∀ (xs : List JSON) (key : String), pyIsdigit key = true →
        (h : toIndex key < xs.length) →
        getStep (.arr xs) key = .ok xs[toIndex key]) := by
  refine ⟨rfl, rfl, ?_, ?_⟩
  · intro current key x hd hstep
    cases current with
    | arr xs =>
        simp only [getStep, hd, if_true] at hstep
        split at hstep
        · next hlt =>
            exact ⟨xs, rfl, hlt, by simpa using hstep.symm⟩
        · simp at hstep
    | null => simp [getStep, hd] at hstep
    | bool b => simp [getStep, hd] at hstep
    | num n => simp [getStep, hd] at hstep
    | str t => simp [getStep, hd] at hstep
    | obj fs => simp [getStep, hd] at hstep
  · intro xs key hd h
    simp [getStep, hd, h]

/-- Witness for C2's general conjuncts at `xs = [7]`, `key = "0"`. -/
theorem C2_resolve_numeric_index_witness :
    getStep (.arr [.num 7]) "0" = .ok (.num 7) :=
  C2_resolve_numeric_index.2.2.2 [.num 7] "0" rfl (by decide)

/-- C3: `assign` on a single-segment non-numeric path whose parent
object exists creates the key when absent and overwrites it when
present (`assign({}, "NewField", v)` succeeds), while `assign` on a
path with a missing intermediate segment fails with PathNotFound
(`assign({}, "A.B", v)`). -/
theorem C3_assign_upsert_no_autovivify : ∀ (v w : JSON),
    setNestedValue (.obj []) "NewField" v = .ok (.obj [("NewField", v)]) ∧
    setNestedValue (.obj [("NewField", w)]) "NewField" v
        = .ok (.obj [("NewField", v)]) ∧
    (∀ (fields : List (String × JSON)) (key : String),
        pyIsdigit key = false →
        setGo (.obj fields) [key] v = .ok (.obj (setKey fields key v))) ∧
    setNestedValue (.obj []) "A.B" v = .error .pathNotFound := by
  intro v w
  refine ⟨rfl, rfl, ?_, rfl⟩
  intro fields key hd
  simp [setGo, setLast, hd]

/-- Witness for C3's general conjunct at `fields = []`, `key = "X"`. -/
theorem C3_assign_upsert_no_autovivify_witness :
    setGo (.obj []) ["X"] (.num 3) = .ok (.obj [("X", .num 3)]) :=
  (C3_assign_upsert_no_autovivify (.num 3) .null).2.2.1 [] "X" rfl

/-- C4 counterexample: `"".split('.')` is `[""]`, not zero segments, so
`resolve({"x":1}, "")` fails with PathNotFound instead of returning the
root, and `assign({}, "", v)` sets the key `""` instead of failing with
InvalidTarget. -/
theorem C4_counterexample :
    getNestedValue (.obj [("x", .num 1)]) "" = .error .pathNotFound ∧
    (¬ getNestedValue (.obj [("x", .num 1)]) ""
        = .ok (.obj [("x", .num 1)])) ∧
    setNestedValue (.obj []) "" .null = .ok (.obj [("", .null)]) ∧
    (¬ setNestedValue (.obj []) "" .null = .error .invalidTarget) := by
  refine ⟨rfl, ?_, rfl, ?_⟩
  · intro h
    rw [show getNestedValue (.obj [("x", .num 1)]) ""
          = .error .pathNotFound from rfl] at h
    exact Except.noConfusion h
  · intro h
    rw [show setNestedValue (.obj []) "" .null
          = .ok (.obj [("", .null)]) from rfl] at h
    exact Except.noConfusion h

/-- C4 (amended): the empty path string is parsed as one segment, the
empty string. Hence `resolve(D, "")` fails with PathNotFound whenever
the root object has no key `""`, `assign(D, "", v)` on an object root
upserts the key `""`, and `assign` on a sequence root fails with
InvalidTarget. -/
theorem C4_empty_path_amended (fs : List (String × JSON)) (xs : List JSON)
    (v : JSON) :
    splitPath "" = [""] ∧
    (lookupKey fs "" = none →
        getNestedValue (.obj fs) "" = .error .pathNotFound) ∧
    setNestedValue (.obj fs) "" v = .ok (.obj (setKey fs "" v)) ∧
    setNestedValue (.arr xs) "" v = .error .invalidTarget := by
  refine ⟨rfl, ?_, ?_, ?_⟩
  · intro h
    simp [getNestedValue, show splitPath "" = [""] from rfl, getGo, getStep,
      show pyIsdigit "" = false from rfl, h]
  · simp [setNestedValue, show splitPath "" = [""] from rfl, setGo, setLast,
      show pyIsdigit "" = false from rfl]
  · simp [setNestedValue, show splitPath "" = [""] from rfl, setGo, setLast,
      show pyIsdigit "" = false from rfl]

/-- Witness for C4's amended statement at `fs = [("x", 1)]`, `xs = []`. -/
theorem C4_empty_path_amended_witness :
    getNestedValue (.obj [("x", .num 1)]) "" = .error .pathNotFound ∧
    setNestedValue (.arr []) "" .null = .error .invalidTarget :=
  ⟨(C4_empty_path_amended [("x", .num 1)] [] .null).2.1 rfl,
   (C4_empty_path_amended [("x", .num 1)] [] .null).2.2.2⟩

/-- C5: a successful assign of `"debug"` at `"Log.Level"` against a
document whose `Log` object maps `Level` to `"info"` rewrites exactly
that entry: every sibling entry of `Level` and of `Log` is preserved
verbatim, and lookups at any other key are unchanged. -/
theorem C5_assign_frame (sibs tops : List (String × JSON)) :
    setNestedValue (.obj (("Log", .obj (("Level", .str "info") :: sibs)) :: tops))
        "Log.Level" (.str "debug")
      = .ok (.obj (("Log", .obj (("Level", .str "debug") :: sibs)) :: tops)) ∧
    (∀ k, k ≠ "Level" →
        lookupKey (("Level", .str "debug") :: sibs) k
          = lookupKey (("Level", .str "info") :: sibs) k) ∧
    (∀ k, k ≠ "Log" →
        lookupKey (("Log", .obj (("Level", .str "debug") :: sibs)) :: tops) k
          = lookupKey (("Log", .obj (("Level", .str "info") :: sibs)) :: tops) k) := by
  refine ⟨rfl, ?_, ?_⟩
  · intro k hk
    have h : ¬(("Level" : String) = k) := fun h => hk h.symm
    simp [lookupKey, h]
  · intro k hk
    have h : ¬(("Log" : String) = k) := fun h => hk h.symm
    simp [lookupKey, h]

/-- Witness for C5 at one sibling each of `Level` and `Log`. -/
theorem C5_assign_frame_witness :
    lookupKey [("Level", .str "debug"), ("Mode", .null)] "Mode"
      = lookupKey [("Level", .str "info"), ("Mode", .null)] "Mode" ∧
    lookupKey [("Log", .obj [("Level", .str "debug")]), ("Services", .null)]
        "Services"
      = lookupKey [("Log", .obj [("Level", .str "info")]), ("Services", .null)]
        "Services" :=
  ⟨(C5_assign_frame [("Mode", .null)] [("Services", .null)]).2.1 "Mode"
      (by decide),
   (C5_assign_frame [] [("Services", .null)]).2.2 "Services" (by decide)⟩

/-- C10: `assign` is atomic on error — whenever the functional model of
`set_nested_value` fails with a PathError, the in-place model returns
the document exactly as it was, with the same error: the only mutation
is the single final write, performed after every check has passed. -/
theorem C10_assign_atomic_on_error (D : JSON) (P : String) (v : JSON)
    (e : PathError) (h : setNestedValue D P v = .error e) :
    setNestedMut D P v = (D, some e) := by
  unfold setNestedMut
  rw [setMutGo_eq]
  rw [show setGo D (splitPath P) v = .error e from h]

/-- Witness for C10 at `D = {}`, `P = "A.B"`. -/
theorem C10_assign_atomic_on_error_witness :
    setNestedMut (.obj []) "A.B" .null = (.obj [], some .pathNotFound) :=
  C10_assign_atomic_on_error (.obj []) "A.B" .null .pathNotFound rfl

/-- C6: `start` fails with AlreadyRunning, spawns nothing and leaves the
tracked reference unchanged whenever a tracked process is still alive
or an external process is discovered; consequently, of two `start`
calls in immediate succession (no intervening stop, so the first pid is
still alive), the first succeeds with a pid and the second fails with
AlreadyRunning with the tracked pid unchanged. -/
theorem C6_start_already_running :
    (∀ (p : Nat) (w : StartWorld), w.trackedAlive = true →
        startZbproxy (some p) w = (.alreadyRunningTracked p, some p, false)) ∧
    (∀ (t : Option Nat) (w : StartWorld) (e : Nat),
        (t = none ∨ w.trackedAlive = false) → w.externalPid = some e →
        startZbproxy t w = (.alreadyRunningExternal e, t, false)) ∧
    (∀ (t : Option Nat) (w₁ w₂ : StartWorld) (p : Nat),
        (startZbproxy t w₁).1 = .started p → w₂.trackedAlive = true →
        startZbproxy (startZbproxy t w₁).2.1 w₂
          = (.alreadyRunningTracked p, some p, false)) := by
  refine ⟨?_, ?_, ?_⟩
  · intro p w h
    obtain ⟨ta, ext, ee, sp⟩ := w
    simp only at h
    subst h
    simp [startZbproxy]
  · intro t w e hdead hext
    obtain ⟨ta, ext, ee, sp⟩ := w
    simp only at hext
    subst hext
    rcases t with _ | q
    · simp [startZbproxy]
    · rcases hdead with h | h
      · exact absurd h (by simp)
      · simp only at h
        subst h
        simp [startZbproxy]
  · intro t w₁ w₂ p h halive
    rw [startZbproxy_started t w₁ p h]
    obtain ⟨ta, ext, ee, sp⟩ := w₂
    simp only at halive
    subst halive
    simp [startZbproxy]

/-- Witness for C6: a tracked-alive call, an external-found call, and
the two-calls-in-succession scenario, at concrete worlds. -/
theorem C6_start_already_running_witness :
    startZbproxy (some 5) ⟨true, none, true, .spawned 9 true⟩
      = (.alreadyRunningTracked 5, some 5, false) ∧
    startZbproxy none ⟨false, some 7, true, .spawned 9 true⟩
      = (.alreadyRunningExternal 7, none, false) ∧
    startZbproxy
        (startZbproxy none ⟨false, none, true, .spawned 9 true⟩).2.1
        ⟨true, none, true, .spawned 11 true⟩
      = (.alreadyRunningTracked 9, some 9, false) :=
  ⟨C6_start_already_running.1 5 ⟨true, none, true, .spawned 9 true⟩ rfl,
   C6_start_already_running.2.1 none ⟨false, some 7, true, .spawned 9 true⟩ 7
     (Or.inl rfl) rfl,
   C6_start_already_running.2.2 none ⟨false, none, true, .spawned 9 true⟩
     ⟨true, none, true, .spawned 11 true⟩ 9 rfl rfl⟩

/-- C7: `status` reconciles before reporting: when the tracked process
is not alive (or none is tracked) and an external process with pid `e`
is found, it reports RunningExternal with that real pid and clears the
tracked reference; when the tracked process is alive it reports
RunningOwned. -/
theorem C7_status_reconciles_external :
    (∀ (t : Option Nat) (w : ScanWorld) (e : Nat),
        (t = none ∨ w.trackedAlive = false) → w.externalPid = some e →
        getStatus t w = (.runningExternal e, none)) ∧
    (∀ (p : Nat) (w : ScanWorld), w.trackedAlive = true →
        getStatus (some p) w = (.runningOwned p, some p)) := by
  refine ⟨?_, ?_⟩
  · intro t w e hdead hext
    obtain ⟨ta, ext⟩ := w
    simp only at hext
    subst hext
    rcases t with _ | q
    · simp [getStatus]
    · rcases hdead with h | h
      · exact absurd h (by simp)
      · simp only at h
        subst h
        simp [getStatus]
  · intro p w h
    obtain ⟨ta, ext⟩ := w
    simp only at h
    subst h
    simp [getStatus]

/-- Witness for C7: an externally-launched pid 99 is reported with the
supervisor's tracked reference cleared, even though it never started
the process. -/
theorem C7_status_reconciles_external_witness :
    getStatus none ⟨false, some 99⟩ = (.runningExternal 99, none) ∧
    getStatus (some 4) ⟨false, some 99⟩ = (.runningExternal 99, none) :=
  ⟨C7_status_reconciles_external.1 none ⟨false, some 99⟩ 99 (Or.inl rfl) rfl,
   C7_status_reconciles_external.1 (some 4) ⟨false, some 99⟩ 99 (Or.inr rfl)
     rfl⟩

/-- C8: `stop` on a system with nothing running returns a success
result with an empty stopped-list, and it returns a success result
listing the stopped pids for every outcome of the external teardown
except NoSuchProcess; but when the discovered external process
disappears between the scan and `terminate()`, the NoSuchProcess
exception is not in the caught tuple and escapes — `stop` fails,
contradicting the never-fails claim (a slip: the code clearly intends
best-effort, catching everything elsewhere). -/
theorem C8_stop_best_effort_bug :
    stopZbproxy none ⟨false, .exitedInTime, none, .exited⟩ = (.ok [], none) ∧
    stopZbproxy none ⟨false, .exitedInTime, some 42, .exited⟩
      = (.ok [42], none) ∧
    stopZbproxy none ⟨false, .exitedInTime, some 42, .noSuchProcess⟩
      = (.error .noSuchProcess, none) ∧
    (∀ (t : Option Nat) (w : StopWorld), w.extTerm ≠ .noSuchProcess →
        ∃ l, (stopZbproxy t w).1 = .ok l) := by
  refine ⟨rfl, rfl, rfl, ?_⟩
  intro t w hterm
  obtain ⟨ta, ts, ext, et⟩ := w
  simp only at hterm
  rcases ext with _ | e
  · exact ⟨_, rfl⟩
  · cases et with
    | exited => exact ⟨_, rfl⟩
    | timeoutThenKill killOk => exact ⟨_, rfl⟩
    | accessDeniedThenKill killOk => exact ⟨_, rfl⟩
    | noSuchProcess => exact absurd rfl hterm

/-- Witness for C8's universally-quantified conjunct at a concrete
world. -/
theorem C8_stop_best_effort_bug_witness :
    ∃ l, (stopZbproxy (some 3) ⟨true, .timedOutThenKilled, some 42,
        .timeoutThenKill true⟩).1 = .ok l :=
  C8_stop_best_effort_bug.2.2.2 (some 3)
    ⟨true, .timedOutThenKilled, some 42, .timeoutThenKill true⟩ (by decide)

/-- C9 counterexample: with the executable missing, `restart` raises
start's NotFound and its result is IDENTICAL whether the internal stop
tore down a previous instance (stopped-list `[42]`) or found nothing
running (stopped-list `[]`): the response never includes the
stopped-list, because `restart_zbproxy` discards `stop_result`, so the
result cannot reflect that the previous instance was torn down. -/
theorem C9_counterexample :
    (stopZbproxy (some 42) ⟨true, .exitedInTime, none, .exited⟩).1
      = .ok [42] ∧
    (stopZbproxy none ⟨false, .exitedInTime, none, .exited⟩).1 = .ok [] ∧
    restartZbproxy (some 42) ⟨true, .exitedInTime, none, .exited⟩
        ⟨false, none, false, .fileNotFound⟩
      = (.raisedFromStart .errNotFound, none) ∧
    restartZbproxy none ⟨false, .exitedInTime, none, .exited⟩
        ⟨false, none, false, .fileNotFound⟩
      = (.raisedFromStart .errNotFound, none) :=
  ⟨rfl, rfl, rfl, rfl⟩

/-- C9 (amended): when `restart`'s internal stop succeeds and the
subsequent start fails because the executable is missing, `restart`
reports overall failure — the start NotFound exception propagates — but
its result does not include the stopped-list of the internal stop
(`stop_result` is discarded by the source). -/
theorem C9_restart_failure_discards_stoplist (t : Option Nat)
    (ws : StopWorld) (wst : StartWorld) (L : List Nat)
    (hstop : (stopZbproxy t ws).1 = .ok L)
    (halive : wst.trackedAlive = false)
    (hext : wst.externalPid = none)
    (hexec : wst.execExists = false) :
    (restartZbproxy t ws wst).1 = .raisedFromStart .errNotFound := by
  obtain ⟨ta, ext, ee, sp⟩ := wst
  simp only at halive hext hexec
  subst halive hext hexec
  unfold restartZbproxy
  rcases hsz : stopZbproxy t ws with ⟨res, t1⟩
  rw [hsz] at hstop
  simp only at hstop
  subst hstop
  cases t1 <;> simp [startZbproxy, startAfterChecks]

/-- Witness for C9's amended statement: stop tears down pid 42, the
executable is missing, restart reports NotFound. -/
theorem C9_restart_failure_discards_stoplist_witness :
    (restartZbproxy (some 42) ⟨true, .exitedInTime, none, .exited⟩
        ⟨false, none, false, .fileNotFound⟩).1
      = .raisedFromStart .errNotFound :=
  C9_restart_failure_discards_stoplist (some 42)
    ⟨true, .exitedInTime, none, .exited⟩
    ⟨false, none, false, .fileNotFound⟩ [42] rfl rfl rfl rfl

end ZB
